import Mathlib

/-!
# osmo_sdr: the sample-dumping command line tool of libosmosdr

A shallow embedding of `software/libosmosdr/src/osmo_sdr.c` (the POSIX shape,
`#ifndef _WIN32`), from the block-size check that follows argument parsing
(line 156) to the `return` of `main` (line 309).

* The command line that `getopt` has parsed is a `Config`.
* libosmosdr, libc and the operating system are not part of the program: what
  they answer is an `Env`, a script of return codes, byte counts and signal
  arrivals.
* Every effect of the program (a libosmosdr call, a libc call, a message on
  `stderr`, the store `do_exit = 1`) is an `Event`; a piece of code is a function
  from the variables it reads to the events it issues, oldest first, and the
  variables afterwards.
* C `int` values are `Int`, `uint32_t`/`size_t` values are `Nat`; the two
  conversions the loop applies to `n_read` are written out (`to_size_t`,
  `to_uint32`).
* A handled signal may arrive once the handlers are installed (`Env.sig_early`), at
  three points of every pass of the sync loop (`SyncIter`), at any point of the blocked
  async call (`AsyncEvent.signal`), and between the end of the transfer and the closing
  report (`Env.sig_late`).
* The sync loop runs against a finite script of passes. When the script runs out
  while the loop would read again, the run has not ended: `Loop.left = false` and
  `Outcome.exit = none`.
-/

namespace OsmoSdr

/-! ## Constants (lines 34-38) -/

def DEFAULT_SAMPLE_RATE : Nat := 500000
def DEFAULT_ASYNC_BUF_NUMBER : Nat := 32
def DEFAULT_BUF_LENGTH : Nat := 16 * 16384
def MINIMAL_BUF_LENGTH : Nat := 512
def MAXIMAL_BUF_LENGTH : Nat := 256 * 16384

/-! ## Effects -/

/-- The stream a `FILE *` of `main` points to: `stdout`, or the file `fopen` returned. -/
inductive FILE where
  | stdout
  | opened
  deriving DecidableEq, Repr

/-- Lines written to `stderr`, one constructor per `fprintf` of the source, with the
values the format string prints. -/
inductive Msg where
  | signal_caught
  | short_write
  | short_read
  | block_size_wrong
  | minimal_length (n : Nat)
  | maximal_length (n : Nat)
  | no_devices
  | found_devices (count : Int)
  | device_line (i : Nat)
  | blank_line
  | using_device (dev_index : Nat)
  | failed_open_device (dev_index : Nat)
  | supported_gains (count : Int)
  | gain_value (i : Nat)
  | supported_rates (count : Int)
  | rate_value (i : Nat)
  | warn_usb_strings
  | usb_strings
  | warn_sample_rate
  | sample_rate_set (samp_rate : Nat)
  | warn_center_freq
  | tuned_to (frequency : Nat)
  | warn_auto_gain
  | warn_manual_gain
  | warn_tuner_gain
  | tuner_gain_set (gain : Int)
  | failed_open_file (filename : String)
  | warn_reset_buffers
  | reading_sync
  | warn_sync_read
  | reading_async
  | user_cancel
  | library_error (r : Int)
  deriving DecidableEq, Repr

/-- One effect of the program. -/
inductive Event where
  | fprintf_stderr (m : Msg)
  | store_do_exit
  | malloc (size : Nat)
  | free
  | sigaction
  | fopen (filename : String)
  | fwrite (len : Nat) (f : FILE)
  | fclose
  | osmosdr_get_device_count
  | osmosdr_get_device_usb_strings (i : Nat)
  | osmosdr_get_device_name (dev_index : Nat)
  | osmosdr_open (dev_index : Nat)
  | osmosdr_get_tuner_gains (fill : Bool)
  | osmosdr_get_sample_rates (fill : Bool)
  | osmosdr_get_usb_strings
  | osmosdr_set_sample_rate (samp_rate : Nat)
  | osmosdr_get_sample_rate
  | osmosdr_set_center_freq (frequency : Nat)
  | osmosdr_set_tuner_gain_mode (manual : Int)
  | osmosdr_set_tuner_gain (gain : Int)
  | osmosdr_reset_buffer
  | osmosdr_read_sync (len : Nat)
  | osmosdr_read_async (buf_num : Nat) (buf_len : Nat)
  | osmosdr_cancel_async
  | osmosdr_close
  deriving DecidableEq, Repr

/-- How the process ends: `exit(code)` or `return status` from `main`. -/
inductive Exit where
  | exited (code : Int)
  | returned (status : Int)
  deriving DecidableEq, Repr

/-! ## Inputs -/

/-- The variables `getopt` fills (lines 98-108 and 116-146). -/
structure Config where
  filename : String
  gain : Int
  sync_mode : Bool
  dev_index : Nat
  frequency : Nat
  samp_rate : Nat
  out_block_size : Nat
  deriving DecidableEq, Repr

/-- One pass through the body of the sync loop, as the environment answers it:
what `osmosdr_read_sync` returns and stores in `n_read`, what `fwrite` returns, and
whether a handled signal arrives while the read blocks, while the write runs, or
after the two checks. -/
structure SyncIter where
  sig_read : Bool
  r : Int
  n_read : Int
  sig_write : Bool
  written : Nat
  sig_end : Bool
  deriving DecidableEq, Repr

/-- What happens while `osmosdr_read_async` blocks: a transfer unit of `len` bytes is
handed to the callback, whose `fwrite` returns `written`; or a handled signal
arrives. -/
inductive AsyncEvent where
  | unit (len : Nat) (written : Nat)
  | signal
  deriving DecidableEq, Repr

/-- The answers of libosmosdr, libc and the operating system during one run. -/
structure Env where
  device_count : Int
  open_r : Int
  sig_early : Bool
  gains_count_null : Int
  gains_count : Int
  rates_count_null : Int
  rates_count : Int
  usb_strings_r : Int
  set_sample_rate_r : Int
  get_sample_rate : Nat
  set_center_freq_r : Int
  set_tuner_gain_mode_r : Int
  set_tuner_gain_r : Int
  fopen_ok : Bool
  reset_buffer_r : Int
  sync : List SyncIter
  async : List AsyncEvent
  read_async_r : Int
  sig_late : Bool
  deriving DecidableEq, Repr

/-! ## Program variables -/

/-- The variables that change after the device is open: the global `do_exit` and the
locals `r` and `samp_rate` of `main`. -/
structure Vars where
  do_exit : Bool
  r : Int
  samp_rate : Nat
  deriving DecidableEq, Repr

/-- What a run of `main` leaves behind. `exit = none`: the script of the environment
ran out while the sync loop was about to read again, so the run has not ended. -/
structure Outcome where
  trace : List Event
  vars : Vars
  exit : Option Exit
  deriving DecidableEq, Repr

/-- What the sync loop leaves behind; `left = false` when the script ran out before
the loop was left. -/
structure Loop where
  events : List Event
  vars : Vars
  left : Bool
  deriving DecidableEq, Repr

/-! ## Conversions of `n_read` -/

/-- The conversion `(size_t)n_read` on a 64-bit target. -/
def to_size_t (n : Int) : Nat := (n % 2 ^ 64).toNat

/-- The conversion `(uint32_t)n_read`. -/
def to_uint32 (n : Int) : Nat := (n % 2 ^ 32).toNat

/-! ## The signal handler and the async callback (lines 75-91) -/

/-- `sighandler`, lines 75-80. -/
def sighandler (v : Vars) : List Event × Vars :=
  ([.fprintf_stderr .signal_caught, .store_do_exit, .osmosdr_cancel_async],
   { v with do_exit := true })

/-- A point of the program at which a handled signal may arrive: the handler runs when
`sig` is set. -/
def deliver (sig : Bool) (v : Vars) : List Event × Vars :=
  if sig then sighandler v else ([], v)

/-- `osmosdr_callback`, lines 83-91: `ctx` is the `FILE *` passed as user context
(`none` for a null pointer), `written` is what `fwrite` returns. -/
def osmosdr_callback (len : Nat) (ctx : Option FILE) (written : Nat) (v : Vars) :
    List Event × Vars :=
  match ctx with
  | none => ([], v)
  | some f =>
    if written ≠ len then
      ([.fwrite len f, .fprintf_stderr .short_write, .osmosdr_cancel_async], v)
    else
      ([.fwrite len f], v)

/-! ## The pieces of `main` -/

/-- Lines 156-165: the block size check. Returns the messages and the new
`out_block_size`. -/
def check_block_size (out_block_size : Nat) : List Event × Nat :=
  if out_block_size < MINIMAL_BUF_LENGTH ∨ out_block_size > MAXIMAL_BUF_LENGTH then
    ([.fprintf_stderr .block_size_wrong,
      .fprintf_stderr (.minimal_length MINIMAL_BUF_LENGTH),
      .fprintf_stderr (.maximal_length MAXIMAL_BUF_LENGTH)],
     DEFAULT_BUF_LENGTH)
  else
    ([], out_block_size)

/-- Lines 176-179: the loop that lists the devices. -/
def list_devices (device_count : Int) : List Event :=
  (List.range device_count.toNat).flatMap fun i =>
    [.osmosdr_get_device_usb_strings i, .fprintf_stderr (.device_line i)]

/-- Lines 201-221: the supported gains and sample rates and the USB strings are
printed. -/
def print_capabilities (env : Env) : List Event :=
  [.osmosdr_get_tuner_gains false, .fprintf_stderr (.supported_gains env.gains_count_null),
   .osmosdr_get_tuner_gains true]
  ++ (List.range env.gains_count.toNat).map (fun i => .fprintf_stderr (.gain_value i))
  ++ [.fprintf_stderr .blank_line,
      .osmosdr_get_sample_rates false, .fprintf_stderr (.supported_rates env.rates_count_null),
      .osmosdr_get_sample_rates true]
  ++ (List.range env.rates_count.toNat).map (fun i => .fprintf_stderr (.rate_value i))
  ++ [.fprintf_stderr .blank_line, .osmosdr_get_usb_strings,
      if env.usb_strings_r < 0 then .fprintf_stderr .warn_usb_strings
      else .fprintf_stderr .usb_strings]

/-- Lines 223-230: the sample rate. -/
def set_sample_rate (env : Env) (v : Vars) : List Event × Vars :=
  if env.set_sample_rate_r < 0 then
    ([.osmosdr_set_sample_rate v.samp_rate, .fprintf_stderr .warn_sample_rate],
     { v with r := env.set_sample_rate_r })
  else
    ([.osmosdr_set_sample_rate v.samp_rate, .osmosdr_get_sample_rate,
      .fprintf_stderr (.sample_rate_set env.get_sample_rate)],
     { v with r := env.set_sample_rate_r, samp_rate := env.get_sample_rate })

/-- Lines 232-237: the center frequency. -/
def set_center_freq (frequency : Nat) (env : Env) (v : Vars) : List Event × Vars :=
  ([.osmosdr_set_center_freq frequency,
    if env.set_center_freq_r < 0 then .fprintf_stderr .warn_center_freq
    else .fprintf_stderr (.tuned_to frequency)],
   { v with r := env.set_center_freq_r })

/-- Lines 239-256: the gain. -/
def set_gain (gain : Int) (env : Env) (v : Vars) : List Event × Vars :=
  if 0 = gain then
    (.osmosdr_set_tuner_gain_mode 0 ::
      (if env.set_tuner_gain_mode_r < 0 then [.fprintf_stderr .warn_auto_gain] else []),
     { v with r := env.set_tuner_gain_mode_r })
  else
    (.osmosdr_set_tuner_gain_mode 1 ::
      (if env.set_tuner_gain_mode_r < 0 then [.fprintf_stderr .warn_manual_gain] else [])
      ++ [.osmosdr_set_tuner_gain gain,
          if env.set_tuner_gain_r < 0 then .fprintf_stderr .warn_tuner_gain
          else .fprintf_stderr (.tuner_gain_set gain)],
     { v with r := env.set_tuner_gain_r })

/-- Lines 223-256: sample rate, center frequency, gain, one after the other. -/
def negotiate (cfg : Config) (env : Env) (v : Vars) : List Event × Vars :=
  let a := set_sample_rate env v
  let b := set_center_freq cfg.frequency env a.2
  let c := set_gain cfg.gain env b.2
  (a.1 ++ b.1 ++ c.1, c.2)

/-- Lines 275-291: the sync loop, `while (!do_exit) { ... }`, run against the scripted
answers of the environment. -/
def sync_loop (file : FILE) (out_block_size : Nat) : List SyncIter → Vars → Loop
  | [], v => ⟨[], v, v.do_exit⟩
  | it :: rest, v =>
    if v.do_exit then ⟨[], v, true⟩
    else
      let h1 := deliver it.sig_read v
      let e1 := .osmosdr_read_sync out_block_size :: h1.1
      let v1 := { h1.2 with r := it.r }
      if it.r < 0 then
        ⟨e1 ++ [.fprintf_stderr .warn_sync_read], v1, true⟩
      else
        let h2 := deliver it.sig_write v1
        let e2 := e1 ++ .fwrite (to_size_t it.n_read) file :: h2.1
        if it.written ≠ to_size_t it.n_read then
          ⟨e2 ++ [.fprintf_stderr .short_write], h2.2, true⟩
        else if to_uint32 it.n_read < out_block_size then
          ⟨e2 ++ [.fprintf_stderr .short_read], h2.2, true⟩
        else
          let h3 := deliver it.sig_end h2.2
          let k := sync_loop file out_block_size rest h3.2
          ⟨e2 ++ h3.1 ++ k.events, k.vars, k.left⟩

/-- What goes on inside a blocked `osmosdr_read_async`: the callback is invoked once per
transfer unit, the signal handler once per signal. -/
def async_units (ctx : Option FILE) : List AsyncEvent → Vars → List Event × Vars
  | [], v => ([], v)
  | .unit len written :: rest, v =>
    let c := osmosdr_callback len ctx written v
    let k := async_units ctx rest c.2
    (c.1 ++ k.1, k.2)
  | .signal :: rest, v =>
    let c := sighandler v
    let k := async_units ctx rest c.2
    (c.1 ++ k.1, k.2)

/-- Modelled from the spec: `osmosdr_read_async` of libosmosdr, whose source is not
among the files; "blocking call that does not return until cancelled or failed; invokes
`callback(buf, len, user_ctx)` once per completed transfer unit". It runs the scripted
units through the callback it was given and returns; the status it returns is
`Env.read_async_r`. The script decides how many units are still delivered after a cancel
call. -/
def osmosdr_read_async (ctx : Option FILE) (buf_num buf_len : Nat) (script : List AsyncEvent)
    (v : Vars) : List Event × Vars :=
  let k := async_units ctx script v
  (.osmosdr_read_async buf_num buf_len :: k.1, k.2)

/-- Lines 273-296: the sync loop or the async call. -/
def acquire (sync_mode : Bool) (file : FILE) (out_block_size : Nat) (env : Env) (v : Vars) :
    Loop :=
  if sync_mode then
    let k := sync_loop file out_block_size env.sync v
    ⟨.fprintf_stderr .reading_sync :: k.events, k.vars, k.left⟩
  else
    let k := osmosdr_read_async (some file) DEFAULT_ASYNC_BUF_NUMBER out_block_size env.async v
    ⟨.fprintf_stderr .reading_async :: k.1, { k.2 with r := env.read_async_r }, true⟩

/-- Lines 298-301: the closing report. -/
def report (v : Vars) : Event :=
  if v.do_exit then .fprintf_stderr .user_cancel else .fprintf_stderr (.library_error v.r)

/-- Lines 303-307: the sink is closed unless it is `stdout`, the device is closed, the
buffer is freed. -/
def cleanup (file : FILE) : List Event :=
  (if file ≠ FILE.stdout then [.fclose] else []) ++ [.osmosdr_close, .free]

/-- Line 309: `return r >= 0 ? r : -r;`, the `int` that `main` returns. Status codes are
taken in the range of `int` without its least value, where `-r` does not overflow. -/
def exit_status (r : Int) : Int := if r ≥ 0 then r else -r

/-- Lines 268-309, once the sink `file` is there. -/
def stream (cfg : Config) (env : Env) (file : FILE) (out_block_size : Nat) (v : Vars) :
    Outcome :=
  let e0 : List Event := .osmosdr_reset_buffer ::
    (if env.reset_buffer_r < 0 then [.fprintf_stderr .warn_reset_buffers] else [])
  let k := acquire cfg.sync_mode file out_block_size env { v with r := env.reset_buffer_r }
  if k.left then
    let h := deliver env.sig_late k.vars
    ⟨e0 ++ k.events ++ h.1 ++ [report h.2] ++ cleanup file, h.2,
     some (.returned (exit_status h.2.r))⟩
  else
    ⟨e0 ++ k.events, k.vars, none⟩

/-- Lines 190-309, once the device is open. -/
def run_device (cfg : Config) (env : Env) (out_block_size : Nat) (v : Vars) : Outcome :=
  let h := deliver env.sig_early v
  let n := negotiate cfg env { h.2 with r := env.usb_strings_r }
  let e0 := [Event.sigaction, .sigaction, .sigaction, .sigaction] ++ h.1
    ++ print_capabilities env ++ n.1
  if cfg.filename = "-" then
    let k := stream cfg env FILE.stdout out_block_size n.2
    ⟨e0 ++ k.trace, k.vars, k.exit⟩
  else if env.fopen_ok then
    let k := stream cfg env FILE.opened out_block_size n.2
    ⟨e0 ++ .fopen cfg.filename :: k.trace, k.vars, k.exit⟩
  else
    ⟨e0 ++ [.fopen cfg.filename, .fprintf_stderr (.failed_open_file cfg.filename)], n.2,
     some (.returned (exit_status n.2.r))⟩

/-- Lines 156-309 of `main`. -/
def main (cfg : Config) (env : Env) : Outcome :=
  let b := check_block_size cfg.out_block_size
  let v0 : Vars := ⟨false, 0, cfg.samp_rate⟩
  let e0 := b.1 ++ [.malloc b.2, .osmosdr_get_device_count]
  if env.device_count = 0 then
    ⟨e0 ++ [.fprintf_stderr .no_devices], v0, some (.exited 1)⟩
  else
    let e1 := e0 ++ .fprintf_stderr (.found_devices env.device_count)
      :: list_devices env.device_count
      ++ [.fprintf_stderr .blank_line, .osmosdr_get_device_name cfg.dev_index,
          .fprintf_stderr (.using_device cfg.dev_index), .osmosdr_open cfg.dev_index]
    if env.open_r < 0 then
      ⟨e1 ++ [.fprintf_stderr (.failed_open_device cfg.dev_index)],
       { v0 with r := env.open_r }, some (.exited 1)⟩
    else
      let k := run_device cfg env b.2 { v0 with r := env.open_r }
      ⟨e1 ++ k.trace, k.vars, k.exit⟩

/-! ## Observations on traces and scripts -/

/-- An event that carries a block size carries `b`. -/
def uses_block (b : Nat) : Event → Bool
  | .malloc n => n == b
  | .osmosdr_read_sync n => n == b
  | .osmosdr_read_async _ n => n == b
  | _ => true

/-- The calls into libosmosdr. -/
def is_device_call : Event → Bool
  | .osmosdr_get_device_count => true
  | .osmosdr_get_device_usb_strings _ => true
  | .osmosdr_get_device_name _ => true
  | .osmosdr_open _ => true
  | .osmosdr_get_tuner_gains _ => true
  | .osmosdr_get_sample_rates _ => true
  | .osmosdr_get_usb_strings => true
  | .osmosdr_set_sample_rate _ => true
  | .osmosdr_get_sample_rate => true
  | .osmosdr_set_center_freq _ => true
  | .osmosdr_set_tuner_gain_mode _ => true
  | .osmosdr_set_tuner_gain _ => true
  | .osmosdr_reset_buffer => true
  | .osmosdr_read_sync _ => true
  | .osmosdr_read_async _ _ => true
  | .osmosdr_cancel_async => true
  | .osmosdr_close => true
  | _ => false

/-- The reads issued to the device, the writes to the sink and the two closing
reports. -/
def is_transfer : Event → Bool
  | .osmosdr_read_sync _ => true
  | .osmosdr_read_async _ _ => true
  | .fwrite _ _ => true
  | .fprintf_stderr .user_cancel => true
  | .fprintf_stderr (.library_error _) => true
  | _ => false

/-- The sink `main` writes to once it has one: `stdout` for the file name "-". -/
def sink_of (filename : String) : FILE :=
  if filename = "-" then FILE.stdout else FILE.opened

/-- The pass reads a full block and writes all of it: none of the three `break`s of the
loop body is taken. -/
def passes (b : Nat) (it : SyncIter) : Bool :=
  decide (0 ≤ it.r) && decide (it.written = to_size_t it.n_read)
    && !decide (to_uint32 it.n_read < b)

/-- No signal arrives during the pass. -/
def quiet (it : SyncIter) : Bool := !it.sig_read && !it.sig_write && !it.sig_end

/-- A signal arrives during the pass. -/
def signalled (it : SyncIter) : Bool := it.sig_read || it.sig_write || it.sig_end

/-- The read and the write of one pass of the sync loop. -/
def pass_transfers (file : FILE) (b : Nat) (it : SyncIter) : List Event :=
  [.osmosdr_read_sync b, .fwrite (to_size_t it.n_read) file]

/-- The write the callback issues for one scripted happening of the async call. -/
def unit_transfers (ctx : Option FILE) : AsyncEvent → List Event
  | .unit len _ => match ctx with
    | some f => [.fwrite len f]
    | none => []
  | .signal => []

/-- The reads of the sync loop. -/
def is_read_sync : Event → Bool
  | .osmosdr_read_sync _ => true
  | _ => false

/-- The steps from negotiation to the start of the transfer: the calls that configure
the device, the opening of the output file and the reset of the device buffer. -/
def is_setup_call : Event → Bool
  | .osmosdr_set_sample_rate _ => true
  | .osmosdr_get_sample_rate => true
  | .osmosdr_set_center_freq _ => true
  | .osmosdr_set_tuner_gain_mode _ => true
  | .osmosdr_set_tuner_gain _ => true
  | .fopen _ => true
  | .osmosdr_reset_buffer => true
  | _ => false

/-- The environment `env` with other answers to the negotiation calls: `a` from
set-sample-rate, `g` from the read-back of the sample rate, `b` from set-center-frequency,
`c` from set-gain-mode and `d` from set-gain. -/
def with_negotiation_results (env : Env) (a : Int) (g : Nat) (b c d : Int) : Env :=
  { env with set_sample_rate_r := a, get_sample_rate := g, set_center_freq_r := b,
             set_tuner_gain_mode_r := c, set_tuner_gain_r := d }

/-! ## Sample runs -/

/-- A command line that asks for sync mode and `stdout`, with a block of 1024 bytes. -/
def cfg_sync : Config :=
  { filename := "-", gain := 0, sync_mode := true, dev_index := 0, frequency := 100000000,
    samp_rate := 500000, out_block_size := 1024 }

/-- A command line that asks for async mode and `stdout`, with a block of 1024 bytes. -/
def cfg_async : Config := { cfg_sync with sync_mode := false }

/-- A command line that names an output file. -/
def cfg_file : Config := { cfg_sync with filename := "out.bin", gain := 40 }

/-- An environment with one device in which every call succeeds with status 0 and no
signal arrives; the scripts of the two transfer modes are empty. -/
def env_ok : Env :=
  { device_count := 1, open_r := 0, sig_early := false, gains_count_null := 2,
    gains_count := 2, rates_count_null := 2, rates_count := 2, usb_strings_r := 0,
    set_sample_rate_r := 0, get_sample_rate := 500000, set_center_freq_r := 0,
    set_tuner_gain_mode_r := 0, set_tuner_gain_r := 0, fopen_ok := true,
    reset_buffer_r := 0, sync := [], async := [], read_async_r := 0, sig_late := false }

/-- A pass of the sync loop that reads and writes a full block of 1024 bytes. -/
def full_pass : SyncIter :=
  { sig_read := false, r := 0, n_read := 1024, sig_write := false, written := 1024,
    sig_end := false }

/-- A pass whose read succeeds with 100 of the 1024 bytes, all of them written. -/
def short_read_pass : SyncIter := { full_pass with n_read := 100, written := 100 }

/-- A pass whose read is full and whose write transfers 512 of the 1024 bytes. -/
def short_write_pass : SyncIter := { full_pass with written := 512 }

/-- A command line that names an output file and a gain of 4 dB, in async mode. -/
def cfg_file_async : Config := { cfg_file with sync_mode := false }

/-- Every negotiation call fails, each with a status of its own; the device would
report 480000 Hz if it were asked. -/
def env_negotiation_fails : Env :=
  { env_ok with set_sample_rate_r := -1, get_sample_rate := 480000, set_center_freq_r := -2,
                set_tuner_gain_mode_r := -3, set_tuner_gain_r := -4 }

/-- The fopen of the output file fails; every device call succeeds with status 0. -/
def env_no_sink : Env := { env_ok with fopen_ok := false }

/-- One full pass, then a short read. -/
def env_short_read : Env := { env_ok with sync := [full_pass, short_read_pass] }

/-- One full pass, then a short write. -/
def env_short_write : Env := { env_ok with sync := [full_pass, short_write_pass] }

/-- A signal arrives while the read of the second pass blocks; that read is short. -/
def env_short_read_signal : Env :=
  { env_ok with sync := [full_pass, { short_read_pass with sig_read := true }] }

/-- A signal arrives while the write of the second pass runs; a third pass is scripted. -/
def env_cancel : Env :=
  { env_ok with sync := [full_pass, { full_pass with sig_write := true }, full_pass] }

/-- Async mode: the write of the third transfer unit is short. -/
def env_async_short_write : Env :=
  { env_ok with async := [.unit 1024 1024, .unit 1024 1024, .unit 1024 300],
                read_async_r := -5 }

/-! ## The block size in force -/

theorem uses_block_check_block_size (b n : Nat) :
    (check_block_size n).1.all (uses_block b) = true := by
  unfold check_block_size
  split <;> simp [uses_block]

theorem uses_block_list_devices (b : Nat) (c : Int) :
    (list_devices c).all (uses_block b) = true := by
  rw [List.all_eq_true]
  intro e he
  simp only [list_devices, List.mem_flatMap] at he
  obtain ⟨i, -, hi⟩ := he
  simp at hi
  rcases hi with rfl | rfl <;> simp [uses_block]

theorem uses_block_print_capabilities (b : Nat) (env : Env) :
    (print_capabilities env).all (uses_block b) = true := by
  simp only [print_capabilities]
  split_ifs <;> simp [uses_block]

theorem uses_block_deliver (b : Nat) (sig : Bool) (v : Vars) :
    (deliver sig v).1.all (uses_block b) = true := by
  unfold deliver sighandler
  split <;> simp [uses_block]

theorem uses_block_negotiate (b : Nat) (cfg : Config) (env : Env) (v : Vars) :
    (negotiate cfg env v).1.all (uses_block b) = true := by
  simp only [negotiate, set_sample_rate, set_center_freq, set_gain]
  split_ifs <;> simp [uses_block]

theorem uses_block_sync_loop (b : Nat) (file : FILE) (its : List SyncIter) (v : Vars) :
    (sync_loop file b its v).events.all (uses_block b) = true := by
  induction its generalizing v with
  | nil => simp [sync_loop]
  | cons it rest ih =>
    simp only [sync_loop]
    split_ifs <;> simp [uses_block, uses_block_deliver, ih]

theorem uses_block_async_units (b : Nat) (ctx : Option FILE) (script : List AsyncEvent)
    (v : Vars) : (async_units ctx script v).1.all (uses_block b) = true := by
  induction script generalizing v with
  | nil => simp [async_units]
  | cons a rest ih =>
    cases a with
    | unit len written =>
      simp only [async_units, List.all_append, ih, Bool.and_true]
      unfold osmosdr_callback
      split
      · simp
      · split <;> simp [uses_block]
    | signal => simp [async_units, sighandler, uses_block, ih]

theorem uses_block_stream (b : Nat) (cfg : Config) (env : Env) (file : FILE) (v : Vars) :
    (stream cfg env file b v).trace.all (uses_block b) = true := by
  have hrep : ∀ w : Vars, uses_block b (report w) = true := by
    intro w; unfold report; split <;> rfl
  have hcl : (cleanup file).all (uses_block b) = true := by
    unfold cleanup; split <;> simp [uses_block]
  have hacq : ∀ w : Vars, (acquire cfg.sync_mode file b env w).events.all (uses_block b)
      = true := by
    intro w
    unfold acquire osmosdr_read_async
    split <;> simp [uses_block, uses_block_sync_loop, uses_block_async_units]
  simp only [stream]
  split_ifs <;>
    simp only [List.all_append, List.all_cons, List.all_nil, hrep, hcl, hacq,
      uses_block_deliver, Bool.and_true, Bool.true_and, List.cons_append, List.nil_append] <;>
    rfl

theorem uses_block_run_device (b : Nat) (cfg : Config) (env : Env) (v : Vars) :
    (run_device cfg env b v).trace.all (uses_block b) = true := by
  simp only [run_device]
  split_ifs <;>
    simp only [List.all_append, List.all_cons, List.all_nil, uses_block_deliver,
      uses_block_print_capabilities, uses_block_negotiate, uses_block_stream, Bool.and_true,
      Bool.true_and, List.cons_append, List.nil_append] <;>
    rfl

theorem uses_block_main (cfg : Config) (env : Env) :
    (main cfg env).trace.all (uses_block (check_block_size cfg.out_block_size).2) = true := by
  simp only [main]
  split_ifs <;>
    simp only [List.all_append, List.all_cons, List.all_nil, uses_block_check_block_size,
      uses_block_list_devices, uses_block_run_device, Bool.and_true, Bool.true_and,
      List.cons_append, List.nil_append] <;>
    simp [uses_block]

/-- C1: a requested block size below 512 or above 256 * 16384 is replaced by 262144, any
other is kept (both bounds inclusive); the buffer is allocated with the resulting size,
and every allocation, every sync read and the async read of a run carry exactly that
size. -/
theorem block_size_in_force (cfg : Config) (env : Env) :
    (cfg.out_block_size < 512 ∨ cfg.out_block_size > 256 * 16384 →
      (check_block_size cfg.out_block_size).2 = 262144 ∧
      Event.malloc 262144 ∈ (main cfg env).trace ∧
      ∀ e ∈ (main cfg env).trace, uses_block 262144 e = true) ∧
    (512 ≤ cfg.out_block_size ∧ cfg.out_block_size ≤ 256 * 16384 →
      (check_block_size cfg.out_block_size).2 = cfg.out_block_size ∧
      Event.malloc cfg.out_block_size ∈ (main cfg env).trace ∧
      ∀ e ∈ (main cfg env).trace, uses_block cfg.out_block_size e = true) := by
  have hall := uses_block_main cfg env
  rw [List.all_eq_true] at hall
  have hmem : Event.malloc (check_block_size cfg.out_block_size).2 ∈ (main cfg env).trace := by
    simp only [main]
    split_ifs <;> simp
  constructor
  · intro h
    have hb : (check_block_size cfg.out_block_size).2 = 262144 := by
      simp [check_block_size, MINIMAL_BUF_LENGTH, MAXIMAL_BUF_LENGTH, DEFAULT_BUF_LENGTH, h]
    rw [hb] at hall hmem
    exact ⟨hb, hmem, hall⟩
  · intro h
    have hb : (check_block_size cfg.out_block_size).2 = cfg.out_block_size := by
      have h1 : ¬ (cfg.out_block_size < 512 ∨ cfg.out_block_size > 256 * 16384) := by omega
      simp [check_block_size, MINIMAL_BUF_LENGTH, MAXIMAL_BUF_LENGTH, h1]
    rw [hb] at hall hmem
    exact ⟨hb, hmem, hall⟩

/-! ## Negotiation -/

/-- C2: the device calls of gain negotiation, whatever the device returns: for gain 0
the one call that requests automatic gain mode (mode 0) and no set-gain call; for any
other gain the call that selects manual mode (mode 1) followed by exactly one set-gain
call with that gain, also when the mode call failed. -/
theorem gain_negotiation_calls (gain : Int) (env : Env) (v : Vars) :
    (set_gain gain env v).1.filter is_device_call =
      if gain = 0 then [.osmosdr_set_tuner_gain_mode 0]
      else [.osmosdr_set_tuner_gain_mode 1, .osmosdr_set_tuner_gain gain] := by
  have e : ((0 : Int) = gain) = (gain = 0) := propext eq_comm
  simp only [set_gain, e]
  split_ifs <;> simp [is_device_call]

/-! ## The cancel flag -/

theorem sighandler_do_exit (v : Vars) : (sighandler v).2.do_exit = true := rfl

theorem deliver_do_exit (sig : Bool) (v : Vars) :
    (deliver sig v).2.do_exit = (sig || v.do_exit) := by
  cases sig <;> simp [deliver, sighandler]

theorem deliver_false (v : Vars) : deliver false v = ([], v) := rfl

theorem deliver_r (sig : Bool) (v : Vars) : (deliver sig v).2.r = v.r := by
  cases sig <;> simp [deliver, sighandler]

theorem osmosdr_callback_vars (len : Nat) (ctx : Option FILE) (written : Nat) (v : Vars) :
    (osmosdr_callback len ctx written v).2 = v := by
  unfold osmosdr_callback
  split
  · rfl
  · split <;> rfl

theorem negotiate_do_exit (cfg : Config) (env : Env) (v : Vars) :
    (negotiate cfg env v).2.do_exit = v.do_exit := by
  simp only [negotiate, set_sample_rate, set_center_freq, set_gain]
  split_ifs <;> rfl

theorem negotiate_vars (cfg : Config) (env : Env) (w : Vars) (s : Bool)
    (h : w.do_exit = s) :
    (⟨s, (negotiate cfg env w).2.r, (negotiate cfg env w).2.samp_rate⟩ : Vars) =
      (negotiate cfg env w).2 := by
  subst h
  rw [← negotiate_do_exit cfg env w]

theorem sync_loop_do_exit (file : FILE) (b : Nat) (its : List SyncIter) (v : Vars)
    (h : v.do_exit = true) : (sync_loop file b its v).vars.do_exit = true := by
  cases its with
  | nil => simp [sync_loop, h]
  | cons it rest => simp [sync_loop, h]

theorem async_units_do_exit (ctx : Option FILE) (script : List AsyncEvent) (v : Vars)
    (h : v.do_exit = true) : (async_units ctx script v).2.do_exit = true := by
  induction script generalizing v with
  | nil => simpa [async_units] using h
  | cons a rest ih =>
    cases a with
    | unit len written =>
      simp only [async_units]
      exact ih _ (by rw [osmosdr_callback_vars]; exact h)
    | signal =>
      simp only [async_units]
      exact ih _ (sighandler_do_exit v)

theorem acquire_do_exit (sync_mode : Bool) (file : FILE) (b : Nat) (env : Env) (v : Vars)
    (h : v.do_exit = true) : (acquire sync_mode file b env v).vars.do_exit = true := by
  unfold acquire osmosdr_read_async
  split
  · exact sync_loop_do_exit file b env.sync v h
  · exact async_units_do_exit (some file) env.async v h

theorem stream_do_exit (cfg : Config) (env : Env) (file : FILE) (b : Nat) (v : Vars)
    (h : v.do_exit = true) : (stream cfg env file b v).vars.do_exit = true := by
  have hk := acquire_do_exit cfg.sync_mode file b env { v with r := env.reset_buffer_r } h
  simp only [stream]
  split_ifs <;> first | exact hk | simp [deliver_do_exit, hk]

theorem run_device_do_exit (cfg : Config) (env : Env) (b : Nat) (v : Vars)
    (h : v.do_exit = true) : (run_device cfg env b v).vars.do_exit = true := by
  have hn : (negotiate cfg env
      { (deliver env.sig_early v).2 with r := env.usb_strings_r }).2.do_exit = true := by
    rw [negotiate_do_exit]
    simp [deliver_do_exit, h]
  simp only [run_device]
  split_ifs <;> first | exact hn | exact stream_do_exit cfg env _ b _ hn

/-! ## Transfers and closing reports of a run -/

theorem report_is_transfer (v : Vars) : is_transfer (report v) = true := by
  unfold report
  split <;> rfl

theorem no_transfer_check_block_size (n : Nat) :
    (check_block_size n).1.filter is_transfer = [] := by
  unfold check_block_size
  split <;> simp [is_transfer]

theorem no_transfer_list_devices (c : Int) : (list_devices c).filter is_transfer = [] := by
  rw [List.filter_eq_nil_iff]
  intro e he
  simp only [list_devices, List.mem_flatMap] at he
  obtain ⟨i, -, hi⟩ := he
  simp at hi
  rcases hi with rfl | rfl <;> simp [is_transfer]

theorem no_transfer_print_capabilities (env : Env) :
    (print_capabilities env).filter is_transfer = [] := by
  rw [List.filter_eq_nil_iff]
  intro e he
  have h : (print_capabilities env).all (fun e => !is_transfer e) = true := by
    simp only [print_capabilities]
    split_ifs <;> simp [is_transfer]
  rw [List.all_eq_true] at h
  simpa using h e he

theorem no_transfer_deliver (sig : Bool) (v : Vars) :
    (deliver sig v).1.filter is_transfer = [] := by
  cases sig <;> simp [deliver, sighandler, is_transfer]

theorem no_transfer_negotiate (cfg : Config) (env : Env) (v : Vars) :
    (negotiate cfg env v).1.filter is_transfer = [] := by
  simp only [negotiate, set_sample_rate, set_center_freq, set_gain]
  split_ifs <;> simp [is_transfer]

theorem no_transfer_cleanup (file : FILE) : (cleanup file).filter is_transfer = [] := by
  unfold cleanup
  split <;> simp [is_transfer]

theorem transfers_async_units (ctx : Option FILE) (script : List AsyncEvent) (v : Vars) :
    (async_units ctx script v).1.filter is_transfer = script.flatMap (unit_transfers ctx) := by
  induction script generalizing v with
  | nil => simp [async_units]
  | cons a rest ih =>
    cases a with
    | unit len written =>
      simp only [async_units, List.filter_append, ih, List.flatMap_cons]
      congr 1
      unfold osmosdr_callback unit_transfers
      split
      · simp
      · split <;> simp [is_transfer]
    | signal =>
      simp [async_units, sighandler, is_transfer, ih, unit_transfers, List.flatMap_cons]

theorem sync_loop_left (file : FILE) (b : Nat) (its : List SyncIter) (v : Vars)
    (h : v.do_exit = true) : sync_loop file b its v = ⟨[], v, true⟩ := by
  cases its with
  | nil => simp [sync_loop, h]
  | cons it rest => simp [sync_loop, h]

/-- A pass that takes no `break`: one read and one write, then the loop goes on with `r`
set and the flag set when a signal came. -/
theorem sync_loop_pass (file : FILE) (b : Nat) (it : SyncIter) (rest : List SyncIter)
    (v : Vars) (hv : v.do_exit = false) (hp : passes b it = true) :
    (sync_loop file b (it :: rest) v).events.filter is_transfer =
        pass_transfers file b it ++
          (sync_loop file b rest ⟨signalled it, it.r, v.samp_rate⟩).events.filter is_transfer ∧
    (sync_loop file b (it :: rest) v).vars =
        (sync_loop file b rest ⟨signalled it, it.r, v.samp_rate⟩).vars ∧
    (sync_loop file b (it :: rest) v).left =
        (sync_loop file b rest ⟨signalled it, it.r, v.samp_rate⟩).left := by
  simp only [passes, Bool.and_eq_true, decide_eq_true_eq, Bool.not_eq_true',
    decide_eq_false_iff_not] at hp
  obtain ⟨⟨h1, h2⟩, h3⟩ := hp
  have h1n : ¬ it.r < 0 := by omega
  obtain ⟨s1, r, n, s2, w, s3⟩ := it
  simp only at h1n h2 h3
  cases s1 <;> cases s2 <;> cases s3 <;>
    simp [sync_loop, hv, h1n, h2, h3, deliver, sighandler, signalled, is_transfer,
      pass_transfers]

/-- A pass whose read succeeds with fewer bytes than the block: one read, one write, and
the loop is left, by the short-write or the short-read `break`, with `r` as the read
returned it and the flag set when a signal came during the read or the write. -/
theorem sync_loop_short (file : FILE) (b : Nat) (it : SyncIter) (rest : List SyncIter)
    (v : Vars) (hv : v.do_exit = false) (hr : 0 ≤ it.r)
    (hshort : to_uint32 it.n_read < b) :
    (sync_loop file b (it :: rest) v).events.filter is_transfer = pass_transfers file b it ∧
    (sync_loop file b (it :: rest) v).vars =
        ⟨it.sig_read || it.sig_write, it.r, v.samp_rate⟩ ∧
    (sync_loop file b (it :: rest) v).left = true := by
  have h1n : ¬ it.r < 0 := by omega
  obtain ⟨s1, r, n, s2, w, s3⟩ := it
  simp only at h1n hshort
  cases v
  simp only at hv
  subst hv
  simp only [sync_loop, h1n, hshort, if_true, if_false, Bool.false_eq_true]
  cases s1 <;> cases s2 <;> split_ifs <;>
    simp [is_transfer, pass_transfers, deliver, sighandler]

/-- A run of passes that take no `break` and see no signal: one read and one write each,
then the loop goes on with the flag still clear. -/
theorem sync_loop_passes (file : FILE) (b : Nat) (pre rest : List SyncIter) (v : Vars)
    (hv : v.do_exit = false) (hpre : ∀ p ∈ pre, passes b p = true ∧ quiet p = true) :
    ∃ r0 : Int,
      (sync_loop file b (pre ++ rest) v).events.filter is_transfer =
          pre.flatMap (pass_transfers file b) ++
            (sync_loop file b rest ⟨false, r0, v.samp_rate⟩).events.filter is_transfer ∧
      (sync_loop file b (pre ++ rest) v).vars =
          (sync_loop file b rest ⟨false, r0, v.samp_rate⟩).vars ∧
      (sync_loop file b (pre ++ rest) v).left =
          (sync_loop file b rest ⟨false, r0, v.samp_rate⟩).left := by
  induction pre generalizing v with
  | nil =>
    refine ⟨v.r, ?_⟩
    have hv0 : v = ⟨false, v.r, v.samp_rate⟩ := by
      cases v; simp_all
    rw [← hv0]
    simp
  | cons p pre ih =>
    have hp := hpre p (List.mem_cons_self _ _)
    have hs : signalled p = false := by
      have hq := hp.2
      simp only [quiet, Bool.and_eq_true, Bool.not_eq_true'] at hq
      simp [signalled, hq.1.1, hq.1.2, hq.2]
    obtain ⟨h1, h2, h3⟩ := sync_loop_pass file b p (pre ++ rest) v hv hp.1
    rw [hs] at h1 h2 h3
    obtain ⟨r0, i1, i2, i3⟩ := ih ⟨false, p.r, v.samp_rate⟩ rfl
      (fun q hq => hpre q (List.mem_cons_of_mem _ hq))
    refine ⟨r0, ?_, ?_, ?_⟩
    · rw [List.cons_append, h1, i1]
      simp [List.flatMap_cons]
    · rw [List.cons_append, h2, i2]
    · rw [List.cons_append, h3, i3]

/-- The part of `main` that follows the opening of the sink, when the loop is left: the
transfers are those of the loop, the closing report follows, and `main` returns the
magnitude of `r`. -/
theorem stream_returns (cfg : Config) (env : Env) (file : FILE) (b : Nat) (v : Vars)
    (hl : (acquire cfg.sync_mode file b env { v with r := env.reset_buffer_r }).left = true) :
    (stream cfg env file b v).trace.filter is_transfer =
        (acquire cfg.sync_mode file b env { v with r := env.reset_buffer_r }).events.filter
            is_transfer ++
          [report (deliver env.sig_late
            (acquire cfg.sync_mode file b env { v with r := env.reset_buffer_r }).vars).2] ∧
    (stream cfg env file b v).exit = some (.returned (exit_status
        (acquire cfg.sync_mode file b env { v with r := env.reset_buffer_r }).vars.r)) ∧
    (stream cfg env file b v).vars = (deliver env.sig_late
        (acquire cfg.sync_mode file b env { v with r := env.reset_buffer_r }).vars).2 := by
  simp only [stream, hl, if_true]
  refine ⟨?_, ?_, trivial⟩
  · split_ifs <;>
      simp only [List.filter_append, List.filter_cons, List.filter_nil, no_transfer_deliver,
        no_transfer_cleanup, report_is_transfer, if_true, List.append_nil, List.nil_append,
        List.cons_append, List.append_assoc] <;>
      simp [is_transfer]
  · rw [deliver_r]

/-- A run that finds a device, opens it and gets its sink: its transfers and closing
report, its exit and its variables are those of the part of `main` that follows the
opening of the sink, entered with the flag set exactly when a signal came early. -/
theorem main_streams (cfg : Config) (env : Env) (h0 : env.device_count ≠ 0)
    (h1 : 0 ≤ env.open_r) (hs : cfg.filename = "-" ∨ env.fopen_ok = true) :
    ∃ (r0 : Int) (sr : Nat),
      (main cfg env).trace.filter is_transfer =
          (stream cfg env (sink_of cfg.filename) (check_block_size cfg.out_block_size).2
            ⟨env.sig_early, r0, sr⟩).trace.filter is_transfer ∧
      (main cfg env).exit =
          (stream cfg env (sink_of cfg.filename) (check_block_size cfg.out_block_size).2
            ⟨env.sig_early, r0, sr⟩).exit ∧
      (main cfg env).vars =
          (stream cfg env (sink_of cfg.filename) (check_block_size cfg.out_block_size).2
            ⟨env.sig_early, r0, sr⟩).vars := by
  have h1n : ¬ env.open_r < 0 := by omega
  have hd : (⟨(deliver env.sig_early ⟨false, env.open_r, cfg.samp_rate⟩).2.do_exit,
      env.usb_strings_r,
      (deliver env.sig_early ⟨false, env.open_r, cfg.samp_rate⟩).2.samp_rate⟩ : Vars).do_exit
      = env.sig_early := by
    simp [deliver_do_exit]
  refine ⟨(negotiate cfg env
      ⟨(deliver env.sig_early ⟨false, env.open_r, cfg.samp_rate⟩).2.do_exit,
        env.usb_strings_r,
        (deliver env.sig_early ⟨false, env.open_r, cfg.samp_rate⟩).2.samp_rate⟩).2.r,
    (negotiate cfg env
      ⟨(deliver env.sig_early ⟨false, env.open_r, cfg.samp_rate⟩).2.do_exit,
        env.usb_strings_r,
        (deliver env.sig_early ⟨false, env.open_r, cfg.samp_rate⟩).2.samp_rate⟩).2.samp_rate,
    ?_⟩
  rw [negotiate_vars cfg env _ env.sig_early hd]
  by_cases hf : cfg.filename = "-"
  · simp only [main, run_device, sink_of, h0, h1n, hf, if_true, if_false]
    simp [List.filter_append, no_transfer_check_block_size, no_transfer_list_devices,
      no_transfer_deliver, no_transfer_print_capabilities, no_transfer_negotiate, is_transfer]
  · have hok : env.fopen_ok = true := by tauto
    simp only [main, run_device, sink_of, h0, h1n, hf, hok, if_true, if_false]
    simp [List.filter_append, no_transfer_check_block_size, no_transfer_list_devices,
      no_transfer_deliver, no_transfer_print_capabilities, no_transfer_negotiate, is_transfer]

theorem countP_read_sync_filter (l : List Event) :
    l.countP is_read_sync = (l.filter is_transfer).countP is_read_sync := by
  rw [List.countP_filter]
  congr 1
  funext e
  cases e <;> simp [is_read_sync, is_transfer]

theorem countP_read_sync_passes (file : FILE) (b : Nat) (l : List SyncIter) :
    (l.flatMap (pass_transfers file b)).countP is_read_sync = l.length := by
  induction l with
  | nil => simp
  | cons p l ih =>
    rw [List.flatMap_cons, List.countP_append, ih]
    simp [pass_transfers, is_read_sync, List.countP_cons]
    omega

/-- A sync-mode run that finds a device, opens it and gets its sink before any signal
comes: once the loop is left, the transfers of the run are those of the loop, the
closing report follows, and `main` returns the magnitude of `r`. -/
theorem main_sync (cfg : Config) (env : Env) (hsync : cfg.sync_mode = true)
    (h0 : env.device_count ≠ 0) (h1 : 0 ≤ env.open_r)
    (hs : cfg.filename = "-" ∨ env.fopen_ok = true) (he : env.sig_early = false) :
    ∃ sr : Nat,
      (sync_loop (sink_of cfg.filename) (check_block_size cfg.out_block_size).2 env.sync
          ⟨false, env.reset_buffer_r, sr⟩).left = true →
      (main cfg env).trace.filter is_transfer =
          (sync_loop (sink_of cfg.filename) (check_block_size cfg.out_block_size).2 env.sync
            ⟨false, env.reset_buffer_r, sr⟩).events.filter is_transfer ++
          [report (deliver env.sig_late
            (sync_loop (sink_of cfg.filename) (check_block_size cfg.out_block_size).2 env.sync
              ⟨false, env.reset_buffer_r, sr⟩).vars).2] ∧
      (main cfg env).exit = some (.returned (exit_status
          (sync_loop (sink_of cfg.filename) (check_block_size cfg.out_block_size).2 env.sync
            ⟨false, env.reset_buffer_r, sr⟩).vars.r)) ∧
      (main cfg env).vars = (deliver env.sig_late
          (sync_loop (sink_of cfg.filename) (check_block_size cfg.out_block_size).2 env.sync
            ⟨false, env.reset_buffer_r, sr⟩).vars).2 := by
  obtain ⟨r0, sr, e1, e2, e3⟩ := main_streams cfg env h0 h1 hs
  refine ⟨sr, fun hl => ?_⟩
  have ha : acquire cfg.sync_mode (sink_of cfg.filename) (check_block_size cfg.out_block_size).2
      env ⟨false, env.reset_buffer_r, sr⟩ =
      ⟨.fprintf_stderr .reading_sync ::
        (sync_loop (sink_of cfg.filename) (check_block_size cfg.out_block_size).2 env.sync
          ⟨false, env.reset_buffer_r, sr⟩).events,
       (sync_loop (sink_of cfg.filename) (check_block_size cfg.out_block_size).2 env.sync
          ⟨false, env.reset_buffer_r, sr⟩).vars,
       (sync_loop (sink_of cfg.filename) (check_block_size cfg.out_block_size).2 env.sync
          ⟨false, env.reset_buffer_r, sr⟩).left⟩ := by
    simp [acquire, hsync]
  rw [he] at e1 e2 e3
  obtain ⟨s1, s2, s3⟩ := stream_returns cfg env (sink_of cfg.filename)
    (check_block_size cfg.out_block_size).2 ⟨false, r0, sr⟩ (by rw [ha]; exact hl)
  rw [ha] at s1 s2 s3
  rw [e1, e2, e3, s1, s2, s3]
  refine ⟨?_, rfl, rfl⟩
  simp [List.filter_cons, is_transfer]

/-- C5: a sync-mode run whose loop makes `pre.length` full passes without a signal and
then a pass during which a signal arrives while the pass itself takes no `break`: that
pass holds the last read of the run (the transfers of the run are one read and one write
per pass up to and including it), the closing report is the user-cancel report and not
the library-error report, and `main` returns. -/
theorem cancel_ends_sync_loop (cfg : Config) (env : Env) (pre rest : List SyncIter)
    (it : SyncIter) (hsync : cfg.sync_mode = true) (h0 : env.device_count ≠ 0)
    (h1 : 0 ≤ env.open_r) (hs : cfg.filename = "-" ∨ env.fopen_ok = true)
    (he : env.sig_early = false) (hscript : env.sync = pre ++ it :: rest)
    (hpre : ∀ p ∈ pre, passes (check_block_size cfg.out_block_size).2 p = true ∧
      quiet p = true)
    (hit : passes (check_block_size cfg.out_block_size).2 it = true)
    (hsig : signalled it = true) :
    (main cfg env).trace.filter is_transfer =
        (pre ++ [it]).flatMap
            (pass_transfers (sink_of cfg.filename) (check_block_size cfg.out_block_size).2) ++
          [.fprintf_stderr .user_cancel] ∧
    (main cfg env).trace.countP is_read_sync = pre.length + 1 ∧
    (main cfg env).vars.do_exit = true ∧
    (main cfg env).exit = some (.returned it.r) := by
  obtain ⟨sr, hm⟩ := main_sync cfg env hsync h0 h1 hs he
  obtain ⟨r1, p1, p2, p3⟩ := sync_loop_passes (sink_of cfg.filename)
    (check_block_size cfg.out_block_size).2 pre (it :: rest) ⟨false, env.reset_buffer_r, sr⟩
    rfl hpre
  obtain ⟨q1, q2, q3⟩ := sync_loop_pass (sink_of cfg.filename)
    (check_block_size cfg.out_block_size).2 it rest ⟨false, r1, sr⟩ rfl hit
  have hleft := sync_loop_left (sink_of cfg.filename) (check_block_size cfg.out_block_size).2
    rest ⟨true, it.r, sr⟩ rfl
  rw [hsig] at q1 q2 q3
  simp only [hleft] at q1 q2 q3
  rw [q1] at p1
  rw [q2] at p2
  rw [q3] at p3
  rw [hscript] at hm
  obtain ⟨m1, m2, m3⟩ := hm p3
  rw [p1, p2] at m1
  rw [p2] at m2 m3
  have hr : 0 ≤ it.r := by
    simp only [passes, Bool.and_eq_true, decide_eq_true_eq] at hit
    exact hit.1.1
  have hfil : (main cfg env).trace.filter is_transfer =
      (pre ++ [it]).flatMap
          (pass_transfers (sink_of cfg.filename) (check_block_size cfg.out_block_size).2) ++
        [.fprintf_stderr .user_cancel] := by
    rw [m1]
    simp [report, deliver_do_exit, List.flatMap_append, List.flatMap_cons]
  refine ⟨hfil, ?_, ?_, ?_⟩
  · rw [countP_read_sync_filter, hfil, List.countP_append, countP_read_sync_passes]
    simp [is_read_sync, List.countP_cons]
  · rw [m3, deliver_do_exit]; simp
  · rw [m2]; simp [exit_status, hr]

/-- C5 at a sample run: one full pass, a signal during the write of the second pass, a
third pass scripted but never read. -/
theorem cancel_ends_sync_loop_witness :
    (main cfg_sync env_cancel).trace.filter is_transfer =
        [.osmosdr_read_sync 1024, .fwrite 1024 FILE.stdout,
         .osmosdr_read_sync 1024, .fwrite 1024 FILE.stdout,
         .fprintf_stderr .user_cancel] ∧
    (main cfg_sync env_cancel).trace.countP is_read_sync = 2 ∧
    (main cfg_sync env_cancel).vars.do_exit = true ∧
    (main cfg_sync env_cancel).exit = some (.returned 0) :=
  cancel_ends_sync_loop cfg_sync env_cancel [full_pass] [full_pass]
    { full_pass with sig_write := true } rfl (by decide) (by decide) (Or.inl rfl) rfl rfl
    (by decide) (by decide) (by decide)

theorem to_uint32_le (n : Int) (b : Nat) (h0 : 0 ≤ n) (hb : n < b) : to_uint32 n < b := by
  unfold to_uint32
  omega

/-- C6, the claim as stated fails: a signal arrives while the read of the second pass
blocks, that read succeeds with 100 of the 1024 bytes, the loop is left, and the closing
report is the user-cancel report. -/
theorem short_read_reported_as_user_cancel :
    cfg_sync.sync_mode = true ∧
    env_short_read_signal.sync = [full_pass, { short_read_pass with sig_read := true }] ∧
    (0 : Int) ≤ short_read_pass.r ∧ short_read_pass.n_read < 1024 ∧
    (main cfg_sync env_short_read_signal).trace.filter is_transfer =
        [.osmosdr_read_sync 1024, .fwrite 1024 FILE.stdout,
         .osmosdr_read_sync 1024, .fwrite 100 FILE.stdout,
         .fprintf_stderr .user_cancel] := by
  decide

/-- C6, amended: a sync-mode run whose loop makes `pre.length` full passes and then a
pass whose read succeeds with fewer bytes than the block size: the short read is the
last read of the run (the transfers of the run are one read and one write per pass up
to and including it) and `main` returns; the closing report is the library-error report
with the status of that read when no signal was handled during that read, during the
write that follows it or before the report, and it is the user-cancel report when one
was. -/
theorem short_read_ends_sync_loop (cfg : Config) (env : Env) (pre rest : List SyncIter)
    (it : SyncIter) (hsync : cfg.sync_mode = true) (h0 : env.device_count ≠ 0)
    (h1 : 0 ≤ env.open_r) (hs : cfg.filename = "-" ∨ env.fopen_ok = true)
    (he : env.sig_early = false) (hscript : env.sync = pre ++ it :: rest)
    (hpre : ∀ p ∈ pre, passes (check_block_size cfg.out_block_size).2 p = true ∧
      quiet p = true)
    (hr : 0 ≤ it.r) (hn : 0 ≤ it.n_read)
    (hshort : it.n_read < (check_block_size cfg.out_block_size).2) :
    (main cfg env).trace.filter is_transfer =
        (pre ++ [it]).flatMap
            (pass_transfers (sink_of cfg.filename) (check_block_size cfg.out_block_size).2) ++
          [if (it.sig_read || it.sig_write || env.sig_late) = true
            then .fprintf_stderr .user_cancel
            else .fprintf_stderr (.library_error it.r)] ∧
    (main cfg env).trace.countP is_read_sync = pre.length + 1 ∧
    (main cfg env).vars.do_exit = (it.sig_read || it.sig_write || env.sig_late) ∧
    (main cfg env).exit = some (.returned it.r) := by
  obtain ⟨sr, hm⟩ := main_sync cfg env hsync h0 h1 hs he
  obtain ⟨r1, p1, p2, p3⟩ := sync_loop_passes (sink_of cfg.filename)
    (check_block_size cfg.out_block_size).2 pre (it :: rest) ⟨false, env.reset_buffer_r, sr⟩
    rfl hpre
  obtain ⟨q1, q2, q3⟩ := sync_loop_short (sink_of cfg.filename)
    (check_block_size cfg.out_block_size).2 it rest ⟨false, r1, sr⟩ rfl hr
    (to_uint32_le _ _ hn hshort)
  rw [q1] at p1
  rw [q2] at p2
  rw [q3] at p3
  rw [hscript] at hm
  obtain ⟨m1, m2, m3⟩ := hm p3
  rw [p1, p2] at m1
  rw [p2] at m2 m3
  have hflag : (deliver env.sig_late ⟨it.sig_read || it.sig_write, it.r, sr⟩).2.do_exit =
      (it.sig_read || it.sig_write || env.sig_late) := by
    rw [deliver_do_exit]
    cases it.sig_read <;> cases it.sig_write <;> cases env.sig_late <;> rfl
  have hrep : report (deliver env.sig_late ⟨it.sig_read || it.sig_write, it.r, sr⟩).2 =
      if (it.sig_read || it.sig_write || env.sig_late) = true
        then .fprintf_stderr .user_cancel
        else .fprintf_stderr (.library_error it.r) := by
    unfold report
    rw [hflag, deliver_r]
  have hfil : (main cfg env).trace.filter is_transfer =
      (pre ++ [it]).flatMap
          (pass_transfers (sink_of cfg.filename) (check_block_size cfg.out_block_size).2) ++
        [if (it.sig_read || it.sig_write || env.sig_late) = true
          then .fprintf_stderr .user_cancel
          else .fprintf_stderr (.library_error it.r)] := by
    rw [m1, hrep]
    simp [List.flatMap_append, List.flatMap_cons]
  refine ⟨hfil, ?_, ?_, ?_⟩
  · rw [countP_read_sync_filter, hfil, List.countP_append, countP_read_sync_passes]
    split_ifs <;> simp [is_read_sync, List.countP_cons]
  · rw [m3, hflag]
  · rw [m2]; simp [exit_status, hr]

/-- C6, amended, at a sample run: one full pass, then a read of 100 of the 1024
bytes. -/
theorem short_read_ends_sync_loop_witness :
    (main cfg_sync env_short_read).trace.filter is_transfer =
        [.osmosdr_read_sync 1024, .fwrite 1024 FILE.stdout,
         .osmosdr_read_sync 1024, .fwrite 100 FILE.stdout,
         .fprintf_stderr (.library_error 0)] ∧
    (main cfg_sync env_short_read).trace.countP is_read_sync = 2 ∧
    (main cfg_sync env_short_read).vars.do_exit = false ∧
    (main cfg_sync env_short_read).exit = some (.returned 0) :=
  short_read_ends_sync_loop cfg_sync env_short_read [full_pass] [] short_read_pass rfl
    (by decide) (by decide) (Or.inl rfl) rfl rfl (by decide) (by decide) (by decide)
    (by decide)

/-! ## Async mode -/

theorem async_units_no_signal (ctx : Option FILE) (script : List AsyncEvent) (v : Vars)
    (h : ∀ a ∈ script, a ≠ AsyncEvent.signal) : (async_units ctx script v).2 = v := by
  induction script generalizing v with
  | nil => rfl
  | cons a rest ih =>
    cases a with
    | unit len written =>
      simp only [async_units]
      rw [ih _ (fun a ha => h a (List.mem_cons_of_mem _ ha)), osmosdr_callback_vars]
    | signal => exact absurd rfl (h _ (List.mem_cons_self _ _))

/-- An async-mode run that finds a device, opens it and gets its sink while no signal
arrives at any time: the transfers of the run are the async read and one write per
transfer unit, the closing report is the library-error report with the status of the
async read, and `main` returns the magnitude of that status. -/
theorem main_async (cfg : Config) (env : Env) (hasync : cfg.sync_mode = false)
    (h0 : env.device_count ≠ 0) (h1 : 0 ≤ env.open_r)
    (hs : cfg.filename = "-" ∨ env.fopen_ok = true) (he : env.sig_early = false)
    (hl : env.sig_late = false) (hns : ∀ a ∈ env.async, a ≠ AsyncEvent.signal) :
    (main cfg env).trace.filter is_transfer =
        .osmosdr_read_async 32 (check_block_size cfg.out_block_size).2 ::
          env.async.flatMap (unit_transfers (some (sink_of cfg.filename))) ++
        [.fprintf_stderr (.library_error env.read_async_r)] ∧
    (main cfg env).vars.do_exit = false ∧
    (main cfg env).exit = some (.returned (exit_status env.read_async_r)) := by
  obtain ⟨r0, sr, e1, e2, e3⟩ := main_streams cfg env h0 h1 hs
  rw [he] at e1 e2 e3
  have ha : acquire cfg.sync_mode (sink_of cfg.filename) (check_block_size cfg.out_block_size).2
      env ⟨false, env.reset_buffer_r, sr⟩ =
      ⟨.fprintf_stderr .reading_async ::
        .osmosdr_read_async 32 (check_block_size cfg.out_block_size).2 ::
          (async_units (some (sink_of cfg.filename)) env.async
            ⟨false, env.reset_buffer_r, sr⟩).1,
       ⟨false, env.read_async_r, sr⟩, true⟩ := by
    simp [acquire, hasync, osmosdr_read_async, DEFAULT_ASYNC_BUF_NUMBER,
      async_units_no_signal _ _ _ hns]
  obtain ⟨s1, s2, s3⟩ := stream_returns cfg env (sink_of cfg.filename)
    (check_block_size cfg.out_block_size).2 ⟨false, r0, sr⟩ (by rw [ha])
  rw [ha] at s1 s2 s3
  rw [e1, e2, e3, s1, s2, s3, hl]
  refine ⟨?_, rfl, rfl⟩
  simp [List.filter_cons, is_transfer, transfers_async_units, deliver_false, report]

/-- C8: the async callback, for every length, context and write result: when the write
to the sink transfers another number of bytes than it was given, the callback issues
exactly one cancel call; when the write is complete it issues none; with a null context
it does nothing; it never stores to the cancel flag and leaves the variables as they
were. So an async-mode run during which no signal arrives, whatever its writes
transferred, closes with the library-error report that carries the status of the async
read, not with the user-cancel report, and `main` returns the magnitude of that
status. -/
theorem async_short_write_is_library_error (cfg : Config) (env : Env)
    (hasync : cfg.sync_mode = false) (h0 : env.device_count ≠ 0) (h1 : 0 ≤ env.open_r)
    (hs : cfg.filename = "-" ∨ env.fopen_ok = true) (he : env.sig_early = false)
    (hl : env.sig_late = false) (hns : ∀ a ∈ env.async, a ≠ AsyncEvent.signal) :
    (∀ (len written : Nat) (f : FILE) (v : Vars), written ≠ len →
      (osmosdr_callback len (some f) written v).1.count .osmosdr_cancel_async = 1) ∧
    (∀ (len : Nat) (ctx : Option FILE) (v : Vars),
      (osmosdr_callback len ctx len v).1.count .osmosdr_cancel_async = 0) ∧
    (∀ (len written : Nat) (v : Vars), (osmosdr_callback len none written v).1 = []) ∧
    (∀ (len written : Nat) (ctx : Option FILE) (v : Vars),
      Event.store_do_exit ∉ (osmosdr_callback len ctx written v).1 ∧
      (osmosdr_callback len ctx written v).2 = v) ∧
    (main cfg env).trace.filter is_transfer =
        .osmosdr_read_async 32 (check_block_size cfg.out_block_size).2 ::
          env.async.flatMap (unit_transfers (some (sink_of cfg.filename))) ++
        [.fprintf_stderr (.library_error env.read_async_r)] ∧
    Event.fprintf_stderr .user_cancel ∉ (main cfg env).trace ∧
    (main cfg env).vars.do_exit = false ∧
    (main cfg env).exit = some (.returned (exit_status env.read_async_r)) := by
  obtain ⟨m1, m2, m3⟩ := main_async cfg env hasync h0 h1 hs he hl hns
  refine ⟨?_, ?_, ?_, ?_, m1, ?_, m2, m3⟩
  · intro len written f v hw
    simp [osmosdr_callback, hw]
  · intro len ctx v
    cases ctx <;> simp [osmosdr_callback]
  · intro len written v
    rfl
  · intro len written ctx v
    refine ⟨?_, osmosdr_callback_vars len ctx written v⟩
    unfold osmosdr_callback
    split
    · simp
    · split <;> simp
  · intro hmem
    have hin : Event.fprintf_stderr .user_cancel ∈ (main cfg env).trace.filter is_transfer :=
      List.mem_filter.mpr ⟨hmem, rfl⟩
    rw [m1] at hin
    simp only [List.cons_append, List.mem_cons, List.mem_append, List.mem_flatMap,
      List.mem_singleton] at hin
    rcases hin with h | h | h
    · cases h
    · obtain ⟨a, -, ha⟩ := h
      cases a <;> simp [unit_transfers] at ha
    · simp at h

/-- C8 at a sample run: the write of the third transfer unit is short, the async read
then returns -5; one cancel call is issued in the whole run. -/
theorem async_short_write_is_library_error_witness :
    (main cfg_async env_async_short_write).trace.filter is_transfer =
        [.osmosdr_read_async 32 1024, .fwrite 1024 FILE.stdout, .fwrite 1024 FILE.stdout,
         .fwrite 1024 FILE.stdout, .fprintf_stderr (.library_error (-5))] ∧
    (main cfg_async env_async_short_write).trace.count .osmosdr_cancel_async = 1 ∧
    (main cfg_async env_async_short_write).exit = some (.returned 5) :=
  ⟨(async_short_write_is_library_error cfg_async env_async_short_write rfl (by decide)
      (by decide) (Or.inl rfl) rfl rfl (by decide)).2.2.2.2.1,
   by decide,
   (async_short_write_is_library_error cfg_async env_async_short_write rfl (by decide)
      (by decide) (Or.inl rfl) rfl rfl (by decide)).2.2.2.2.2.2.2⟩

/-! ## Exit status and release of the device -/

/-- When the sink is there and `main` returns, the last effects of the run are the
release of the resources: the sink is closed unless it is `stdout`, the device is
closed, the buffer is freed. -/
theorem stream_cleans_up (cfg : Config) (env : Env) (file : FILE) (b : Nat) (v : Vars)
    (x : Exit) (h : (stream cfg env file b v).exit = some x) :
    cleanup file <:+ (stream cfg env file b v).trace := by
  simp only [stream] at h ⊢
  split_ifs at h ⊢ <;> exact List.suffix_append _ _

/-- When the output file cannot be opened, `main` returns the magnitude of what the last
gain call returned. -/
theorem fopen_failure_exit (cfg : Config) (env : Env) (h0 : env.device_count ≠ 0)
    (h1 : 0 ≤ env.open_r) (hf : cfg.filename ≠ "-") (hok : env.fopen_ok = false) :
    (main cfg env).exit = some (.returned (exit_status
      (if cfg.gain = 0 then env.set_tuner_gain_mode_r else env.set_tuner_gain_r))) := by
  have h1n : ¬ env.open_r < 0 := by omega
  have e : ((0 : Int) = cfg.gain) = (cfg.gain = 0) := propext eq_comm
  simp only [main, run_device, negotiate, set_gain, h0, h1n, hf, hok, e, if_false,
    Bool.false_eq_true]
  split_ifs <;> rfl

/-- C3, the code at two failing inputs: a sync-mode run whose second read succeeds with
status 0 and 100 of the 1024 bytes, and one whose second write transfers 512 of the 1024
bytes. Each leaves the loop with the "samples lost" message and the library-error
report, and `main` returns 0. -/
theorem short_transfer_returns_zero :
    Event.fprintf_stderr .short_read ∈ (main cfg_sync env_short_read).trace ∧
    Event.fprintf_stderr (.library_error 0) ∈ (main cfg_sync env_short_read).trace ∧
    (main cfg_sync env_short_read).trace.countP is_read_sync = 2 ∧
    (main cfg_sync env_short_read).exit = some (.returned 0) ∧
    Event.fprintf_stderr .short_write ∈ (main cfg_sync env_short_write).trace ∧
    Event.fprintf_stderr (.library_error 0) ∈ (main cfg_sync env_short_write).trace ∧
    (main cfg_sync env_short_write).trace.countP is_read_sync = 2 ∧
    (main cfg_sync env_short_write).exit = some (.returned 0) := by
  decide

/-- C4, the code at a failing input: the output file "out.bin" cannot be opened after
every negotiation call returned 0. The failure is reported and `main` returns 0, the
status of the last gain call, not 1. -/
theorem fopen_failure_returns_zero :
    cfg_file.filename ≠ "-" ∧ env_no_sink.fopen_ok = false ∧
    Event.fprintf_stderr (.failed_open_file "out.bin") ∈ (main cfg_file env_no_sink).trace ∧
    (main cfg_file env_no_sink).exit = some (.returned 0) := by
  decide

/-- C7, the code at a failing input: the device is opened, the output file "out.bin"
cannot be opened, and `main` returns without closing the device or freeing the
buffer. -/
theorem fopen_failure_skips_close :
    Event.osmosdr_open 0 ∈ (main cfg_file env_no_sink).trace ∧
    Event.fopen "out.bin" ∈ (main cfg_file env_no_sink).trace ∧
    Event.osmosdr_close ∉ (main cfg_file env_no_sink).trace ∧
    Event.free ∉ (main cfg_file env_no_sink).trace ∧
    (∃ status, (main cfg_file env_no_sink).exit = some (.returned status)) := by
  refine ⟨by decide, by decide, by decide, by decide, 0, by decide⟩

/-! ## The signal handler -/

/-- C9, the claim as stated fails: the effects of the handler are not the store to the
flag followed by the cancel call; the first of them is a line written to `stderr`. -/
theorem sighandler_writes_stderr :
    (sighandler ⟨false, 0, 0⟩).1 ≠ [.store_do_exit, .osmosdr_cancel_async] ∧
    (sighandler ⟨false, 0, 0⟩).1.head? = some (.fprintf_stderr .signal_caught) := by
  decide

/-- C9, amended: the handler performs exactly three effects, in order: it writes the
line "Signal caught, exiting!" to `stderr`, stores 1 to the cancel flag and calls the
device cancel operation; it allocates nothing and changes no other variable. The flag is
monotonic: once it is set, it is still set after the handler, after the async callback,
after the sync loop, after the async call and after everything `main` does once the
handlers are installed. -/
theorem sighandler_effects (v : Vars) :
    (sighandler v).1 =
        [.fprintf_stderr .signal_caught, .store_do_exit, .osmosdr_cancel_async] ∧
    (sighandler v).2 = { v with do_exit := true } ∧
    (∀ n, Event.malloc n ∉ (sighandler v).1) ∧
    (v.do_exit = true → (sighandler v).2.do_exit = true) ∧
    (v.do_exit = true → ∀ len ctx written,
      (osmosdr_callback len ctx written v).2.do_exit = true) ∧
    (v.do_exit = true → ∀ file b its, (sync_loop file b its v).vars.do_exit = true) ∧
    (v.do_exit = true → ∀ ctx script, (async_units ctx script v).2.do_exit = true) ∧
    (v.do_exit = true → ∀ cfg env b, (run_device cfg env b v).vars.do_exit = true) := by
  refine ⟨rfl, rfl, ?_, fun _ => rfl, ?_, ?_, ?_, ?_⟩
  · intro n
    simp [sighandler]
  · intro h len ctx written
    rw [osmosdr_callback_vars]; exact h
  · intro h file b its
    exact sync_loop_do_exit file b its v h
  · intro h ctx script
    exact async_units_do_exit ctx script v h
  · intro h cfg env b
    exact run_device_do_exit cfg env b v h

/-! ## Negotiation inside a run -/

theorem deliver_samp_rate (sig : Bool) (v : Vars) :
    (deliver sig v).2.samp_rate = v.samp_rate := by
  cases sig <;> rfl

theorem sync_loop_samp_rate (file : FILE) (b : Nat) (its : List SyncIter) (v : Vars) :
    (sync_loop file b its v).vars.samp_rate = v.samp_rate := by
  induction its generalizing v with
  | nil => rfl
  | cons it rest ih =>
    simp only [sync_loop]
    split_ifs <;> simp [ih, deliver_samp_rate]

theorem async_units_samp_rate (ctx : Option FILE) (script : List AsyncEvent) (v : Vars) :
    (async_units ctx script v).2.samp_rate = v.samp_rate := by
  induction script generalizing v with
  | nil => rfl
  | cons a rest ih =>
    cases a with
    | unit len written => simp only [async_units, ih, osmosdr_callback_vars]
    | signal => simp only [async_units, ih]; rfl

theorem stream_samp_rate (cfg : Config) (env : Env) (file : FILE) (b : Nat) (v : Vars) :
    (stream cfg env file b v).vars.samp_rate = v.samp_rate := by
  have ha : ∀ w : Vars, (acquire cfg.sync_mode file b env w).vars.samp_rate = w.samp_rate := by
    intro w
    unfold acquire osmosdr_read_async
    split
    · exact sync_loop_samp_rate file b env.sync w
    · exact async_units_samp_rate (some file) env.async w
  simp only [stream]
  split_ifs <;> simp [deliver_samp_rate, ha]

theorem no_setup_deliver (sig : Bool) (v : Vars) :
    (deliver sig v).1.filter is_setup_call = [] := by
  cases sig <;> simp [deliver, sighandler, is_setup_call]

theorem no_setup_check_block_size (n : Nat) :
    (check_block_size n).1.filter is_setup_call = [] := by
  unfold check_block_size
  split <;> simp [is_setup_call]

theorem no_setup_list_devices (c : Int) : (list_devices c).filter is_setup_call = [] := by
  rw [List.filter_eq_nil_iff]
  intro e he
  simp only [list_devices, List.mem_flatMap] at he
  obtain ⟨i, -, hi⟩ := he
  simp at hi
  rcases hi with rfl | rfl <;> simp [is_setup_call]

theorem no_setup_print_capabilities (env : Env) :
    (print_capabilities env).filter is_setup_call = [] := by
  rw [List.filter_eq_nil_iff]
  intro e he
  have h : (print_capabilities env).all (fun e => !is_setup_call e) = true := by
    simp only [print_capabilities]
    split_ifs <;> simp [is_setup_call]
  rw [List.all_eq_true] at h
  simpa using h e he

theorem no_setup_sync_loop (file : FILE) (b : Nat) (its : List SyncIter) (v : Vars) :
    (sync_loop file b its v).events.filter is_setup_call = [] := by
  induction its generalizing v with
  | nil => simp [sync_loop]
  | cons it rest ih =>
    simp only [sync_loop]
    split_ifs <;> simp [List.filter_append, List.filter_cons, no_setup_deliver, ih,
      is_setup_call]

theorem no_setup_async_units (ctx : Option FILE) (script : List AsyncEvent) (v : Vars) :
    (async_units ctx script v).1.filter is_setup_call = [] := by
  induction script generalizing v with
  | nil => simp [async_units]
  | cons a rest ih =>
    cases a with
    | unit len written =>
      simp only [async_units, List.filter_append, ih, List.append_nil]
      unfold osmosdr_callback
      split
      · simp
      · split <;> simp [is_setup_call]
    | signal => simp [async_units, sighandler, is_setup_call, ih]

/-- The part of `main` that follows the opening of the sink issues one of the setup
steps, the reset of the device buffer. -/
theorem setup_stream (cfg : Config) (env : Env) (file : FILE) (b : Nat) (v : Vars) :
    (stream cfg env file b v).trace.filter is_setup_call = [.osmosdr_reset_buffer] := by
  have hrep : ∀ w : Vars, is_setup_call (report w) = false := by
    intro w; unfold report; split <;> rfl
  have hcl : (cleanup file).filter is_setup_call = [] := by
    unfold cleanup; split <;> simp [is_setup_call]
  have hacq : ∀ w : Vars,
      (acquire cfg.sync_mode file b env w).events.filter is_setup_call = [] := by
    intro w
    unfold acquire osmosdr_read_async
    split <;> simp [List.filter_cons, is_setup_call, no_setup_sync_loop, no_setup_async_units]
  simp only [stream]
  split_ifs <;>
    simp only [List.filter_append, List.filter_cons, List.filter_nil, hrep, hcl, hacq,
      no_setup_deliver, List.append_nil, List.nil_append, List.cons_append,
      Bool.false_eq_true, if_false] <;>
    simp [is_setup_call]

/-- The setup steps of negotiation, whatever the device returns. -/
theorem setup_negotiate (cfg : Config) (env : Env) (v : Vars) :
    (negotiate cfg env v).1.filter is_setup_call =
        .osmosdr_set_sample_rate v.samp_rate ::
          ((if 0 ≤ env.set_sample_rate_r then [.osmosdr_get_sample_rate] else []) ++
            .osmosdr_set_center_freq cfg.frequency ::
              .osmosdr_set_tuner_gain_mode (if cfg.gain = 0 then 0 else 1) ::
                (if cfg.gain = 0 then [] else [.osmosdr_set_tuner_gain cfg.gain])) := by
  have e : ((0 : Int) = cfg.gain) = (cfg.gain = 0) := propext eq_comm
  simp only [negotiate, set_sample_rate, set_center_freq, set_gain, e]
  split_ifs <;> first | omega | simp [is_setup_call]

theorem negotiate_samp_rate (cfg : Config) (env : Env) (v : Vars) :
    (negotiate cfg env v).2.samp_rate =
      (if 0 ≤ env.set_sample_rate_r then env.get_sample_rate else v.samp_rate) := by
  simp only [negotiate, set_sample_rate, set_center_freq, set_gain]
  split_ifs <;> first | omega | rfl

/-! ## What the transfer depends on -/

/-- The sync loop neither reads nor writes `samp_rate`. -/
theorem sync_loop_congr (file : FILE) (b : Nat) (its : List SyncIter) (d : Bool) (r : Int)
    (s : Nat) :
    sync_loop file b its ⟨d, r, s⟩ =
      ⟨(sync_loop file b its ⟨d, r, 0⟩).events,
       ⟨(sync_loop file b its ⟨d, r, 0⟩).vars.do_exit,
        (sync_loop file b its ⟨d, r, 0⟩).vars.r, s⟩,
       (sync_loop file b its ⟨d, r, 0⟩).left⟩ := by
  induction its generalizing d r with
  | nil => simp [sync_loop]
  | cons it rest ih =>
    obtain ⟨s1, r1, n, s2, w, s3⟩ := it
    cases d
    · cases s1 <;> cases s2 <;> cases s3 <;>
        simp only [sync_loop, deliver, sighandler, Bool.false_eq_true, if_false, if_true] <;>
        split_ifs <;> first | rfl | (rw [ih])
    · simp [sync_loop]

/-- The async call neither reads nor writes `samp_rate` and `r`. -/
theorem async_units_congr (ctx : Option FILE) (script : List AsyncEvent) (d : Bool) (r : Int)
    (s : Nat) :
    async_units ctx script ⟨d, r, s⟩ =
      ((async_units ctx script ⟨d, 0, 0⟩).1,
       ⟨(async_units ctx script ⟨d, 0, 0⟩).2.do_exit, r, s⟩) := by
  induction script generalizing d with
  | nil => rfl
  | cons a rest ih =>
    cases a with
    | unit len written =>
      have hc : ∀ v : Vars, osmosdr_callback len ctx written v =
          ((osmosdr_callback len ctx written ⟨false, 0, 0⟩).1, v) := by
        intro v
        unfold osmosdr_callback
        split
        · rfl
        · split <;> rfl
      simp only [async_units]
      rw [hc ⟨d, r, s⟩, hc ⟨d, 0, 0⟩, ih]
    | signal =>
      simp only [async_units, sighandler]
      rw [ih]

/-- The part of `main` that follows the opening of the sink depends on the variables it
is entered with through the cancel flag alone. -/
theorem stream_congr (cfg : Config) (env : Env) (file : FILE) (b : Nat) (d : Bool) (r : Int)
    (s : Nat) :
    (stream cfg env file b ⟨d, r, s⟩).trace = (stream cfg env file b ⟨d, 0, 0⟩).trace ∧
    (stream cfg env file b ⟨d, r, s⟩).exit = (stream cfg env file b ⟨d, 0, 0⟩).exit ∧
    (stream cfg env file b ⟨d, r, s⟩).vars.do_exit =
      (stream cfg env file b ⟨d, 0, 0⟩).vars.do_exit := by
  have ha : acquire cfg.sync_mode file b env ⟨d, env.reset_buffer_r, s⟩ =
      ⟨(acquire cfg.sync_mode file b env ⟨d, env.reset_buffer_r, 0⟩).events,
       ⟨(acquire cfg.sync_mode file b env ⟨d, env.reset_buffer_r, 0⟩).vars.do_exit,
        (acquire cfg.sync_mode file b env ⟨d, env.reset_buffer_r, 0⟩).vars.r, s⟩,
       (acquire cfg.sync_mode file b env ⟨d, env.reset_buffer_r, 0⟩).left⟩ := by
    unfold acquire osmosdr_read_async
    split
    · simp only
      rw [sync_loop_congr]
    · simp only
      rw [async_units_congr, async_units_congr _ _ _ env.reset_buffer_r 0]
  simp only [stream]
  rw [ha]
  generalize acquire cfg.sync_mode file b env ⟨d, env.reset_buffer_r, 0⟩ = k
  obtain ⟨ke, ⟨kd, kr, ks⟩, kl⟩ := k
  cases kl <;> cases env.sig_late <;> simp [deliver, sighandler, report]

/-- The part of `main` that follows the opening of the sink does not look at what the
negotiation calls returned. -/
theorem stream_with_negotiation_results (cfg : Config) (env : Env) (file : FILE) (b : Nat)
    (v : Vars) (a : Int) (g : Nat) (b1 c d : Int) :
    stream cfg (with_negotiation_results env a g b1 c d) file b v = stream cfg env file b v :=
  rfl

/-- A run that finds a device, opens it and gets its sink: its transfers and closing
report, its exit and its cancel flag are those of the part of `main` that follows the
opening of the sink, entered with the flag set exactly when a signal came early. -/
theorem main_streams_flag (cfg : Config) (env : Env) (h0 : env.device_count ≠ 0)
    (h1 : 0 ≤ env.open_r) (hs : cfg.filename = "-" ∨ env.fopen_ok = true) :
    (main cfg env).trace.filter is_transfer =
        (stream cfg env (sink_of cfg.filename) (check_block_size cfg.out_block_size).2
          ⟨env.sig_early, 0, 0⟩).trace.filter is_transfer ∧
    (main cfg env).exit =
        (stream cfg env (sink_of cfg.filename) (check_block_size cfg.out_block_size).2
          ⟨env.sig_early, 0, 0⟩).exit ∧
    (main cfg env).vars.do_exit =
        (stream cfg env (sink_of cfg.filename) (check_block_size cfg.out_block_size).2
          ⟨env.sig_early, 0, 0⟩).vars.do_exit := by
  obtain ⟨r0, sr, e1, e2, e3⟩ := main_streams cfg env h0 h1 hs
  obtain ⟨c1, c2, c3⟩ := stream_congr cfg env (sink_of cfg.filename)
    (check_block_size cfg.out_block_size).2 env.sig_early r0 sr
  rw [e1, e2, e3, c1, c2, c3]
  exact ⟨rfl, rfl, rfl⟩

/-- C10: in every run that finds a device and opens it, whatever the negotiation calls
return: the steps from negotiation to the start of the transfer are set-sample-rate, the
read-back of the sample rate exactly when set-sample-rate returned 0 or more,
set-center-frequency, set-gain-mode (then the set-gain call of a nonzero gain), each
once and in this order, followed by the opening of the output file unless the sink is
`stdout` and by the reset of the device buffer once the sink is there. The sample rate
variable holds the value read back when set-sample-rate succeeded and the requested rate
otherwise. No negotiation result ends the run: `main` never calls exit(), and with the
sink there the transfers, the closing report, the exit and the cancel flag of the run
are the same for every other answer to the five negotiation calls. The order and the
read-back hold for `negotiate` entered with any variables. -/
theorem negotiation_order (cfg : Config) (env : Env) (h0 : env.device_count ≠ 0)
    (h1 : 0 ≤ env.open_r) :
    (main cfg env).trace.filter is_setup_call =
        .osmosdr_set_sample_rate cfg.samp_rate ::
          ((if 0 ≤ env.set_sample_rate_r then [.osmosdr_get_sample_rate] else []) ++
            .osmosdr_set_center_freq cfg.frequency ::
              .osmosdr_set_tuner_gain_mode (if cfg.gain = 0 then 0 else 1) ::
                (if cfg.gain = 0 then [] else [.osmosdr_set_tuner_gain cfg.gain])) ++
        (if cfg.filename = "-" then [.osmosdr_reset_buffer]
          else if env.fopen_ok = true then [.fopen cfg.filename, .osmosdr_reset_buffer]
          else [.fopen cfg.filename]) ∧
    (main cfg env).vars.samp_rate =
        (if 0 ≤ env.set_sample_rate_r then env.get_sample_rate else cfg.samp_rate) ∧
    (Event.osmosdr_get_sample_rate ∈ (main cfg env).trace ↔ 0 ≤ env.set_sample_rate_r) ∧
    (∀ c, (main cfg env).exit ≠ some (.exited c)) ∧
    (cfg.filename = "-" ∨ env.fopen_ok = true → ∀ (a : Int) (g : Nat) (b c d : Int),
      (main cfg (with_negotiation_results env a g b c d)).trace.filter is_transfer =
          (main cfg env).trace.filter is_transfer ∧
      (main cfg (with_negotiation_results env a g b c d)).exit = (main cfg env).exit ∧
      (main cfg (with_negotiation_results env a g b c d)).vars.do_exit =
          (main cfg env).vars.do_exit) ∧
    (∀ v : Vars,
      (negotiate cfg env v).1.filter is_device_call =
          .osmosdr_set_sample_rate v.samp_rate ::
            ((if 0 ≤ env.set_sample_rate_r then [.osmosdr_get_sample_rate] else []) ++
              .osmosdr_set_center_freq cfg.frequency ::
                .osmosdr_set_tuner_gain_mode (if cfg.gain = 0 then 0 else 1) ::
                  (if cfg.gain = 0 then [] else [.osmosdr_set_tuner_gain cfg.gain])) ∧
      (negotiate cfg env v).2.samp_rate =
          (if 0 ≤ env.set_sample_rate_r then env.get_sample_rate else v.samp_rate)) := by
  have h1n : ¬ env.open_r < 0 := by omega
  have hA : (main cfg env).trace.filter is_setup_call =
      .osmosdr_set_sample_rate cfg.samp_rate ::
        ((if 0 ≤ env.set_sample_rate_r then [.osmosdr_get_sample_rate] else []) ++
          .osmosdr_set_center_freq cfg.frequency ::
            .osmosdr_set_tuner_gain_mode (if cfg.gain = 0 then 0 else 1) ::
              (if cfg.gain = 0 then [] else [.osmosdr_set_tuner_gain cfg.gain])) ++
      (if cfg.filename = "-" then [.osmosdr_reset_buffer]
        else if env.fopen_ok = true then [.fopen cfg.filename, .osmosdr_reset_buffer]
        else [.fopen cfg.filename]) := by
    simp only [main, run_device, h0, h1n, if_false]
    split_ifs <;>
      simp only [List.filter_append, List.filter_cons, List.filter_nil,
        no_setup_check_block_size, no_setup_list_devices, no_setup_deliver,
        no_setup_print_capabilities, setup_negotiate, setup_stream, deliver_samp_rate,
        List.nil_append, List.append_nil] <;>
      simp [is_setup_call, *]
  refine ⟨hA, ?_, ?_, ?_, ?_, ?_⟩
  · simp only [main, run_device, h0, h1n, if_false]
    split_ifs <;>
      simp only [stream_samp_rate, negotiate_samp_rate, deliver_samp_rate] <;>
      simp_all
  · constructor
    · intro hmem
      have hin : Event.osmosdr_get_sample_rate ∈ (main cfg env).trace.filter is_setup_call :=
        List.mem_filter.mpr ⟨hmem, rfl⟩
      rw [hA] at hin
      by_contra hneg
      simp only [hneg, if_false] at hin
      split_ifs at hin <;> simp at hin
    · intro hr
      have hin : Event.osmosdr_get_sample_rate ∈ (main cfg env).trace.filter is_setup_call := by
        rw [hA]
        simp [hr]
      exact (List.mem_filter.mp hin).1
  · intro c
    simp only [main, run_device, stream, h0, h1n, if_false]
    split_ifs <;> simp
  · intro hs a g b c d
    obtain ⟨m1, m2, m3⟩ := main_streams_flag cfg env h0 h1 hs
    obtain ⟨n1, n2, n3⟩ := main_streams_flag cfg (with_negotiation_results env a g b c d)
      h0 h1 hs
    rw [stream_with_negotiation_results] at n1 n2 n3
    rw [m1, m2, m3]
    exact ⟨n1, n2, n3⟩
  · intro v
    refine ⟨?_, negotiate_samp_rate cfg env v⟩
    have e : ((0 : Int) = cfg.gain) = (cfg.gain = 0) := propext eq_comm
    simp only [negotiate, set_sample_rate, set_center_freq, set_gain, e]
    split_ifs <;> first | omega | simp [is_device_call]

/-- C10 at a sample run: every negotiation call fails, and the run goes on to open
"out.bin", reset the buffer, transfer and return the status of the async read. -/
theorem negotiation_order_witness :
    (main cfg_file_async env_negotiation_fails).trace.filter is_setup_call =
        [.osmosdr_set_sample_rate 500000, .osmosdr_set_center_freq 100000000,
         .osmosdr_set_tuner_gain_mode 1, .osmosdr_set_tuner_gain 40,
         .fopen "out.bin", .osmosdr_reset_buffer] ∧
    (main cfg_file_async env_negotiation_fails).vars.samp_rate = 500000 ∧
    (main cfg_file_async env_negotiation_fails).trace.filter is_transfer =
        [.osmosdr_read_async 32 1024, .fprintf_stderr (.library_error 0)] ∧
    (main cfg_file_async env_negotiation_fails).exit = some (.returned 0) :=
  ⟨(negotiation_order cfg_file_async env_negotiation_fails (by decide) (by decide)).1,
   (negotiation_order cfg_file_async env_negotiation_fails (by decide) (by decide)).2.1,
   by decide, by decide⟩

end OsmoSdr
